import Mathlib

/-!
Shallow embedding of `src/scraper.py` (class `SmartScraper`).

The pipeline is `scrape = _safe_request → _check_for_blocking →
(debug-file write) → _extract_data_with_llm`.  External collaborators
(the HTTP transport, the BeautifulSoup reduction, the two Azure OpenAI
completions and the local file system) are modelled as oracle fields of
an environment record; the repository's own control flow, string
heuristics and JSON/dict manipulation are translated directly from the
source.  Each oracle returns the already-parsed outcome of the external
call: `Option JValue` collapses "the call raised" and "`json.loads`
failed" into `none`, exactly the granularity at which the source's
`try/except` blocks observe those calls.
-/

namespace SmartScraper

/-- JSON values, the shape `json.loads` produces: objects are ordered
key/value association lists, numbers are rationals. -/
inductive JValue where
  | null : JValue
  | bool : Bool → JValue
  | num : Rat → JValue
  | str : String → JValue
  | arr : List JValue → JValue
  | obj : List (String × JValue) → JValue

/-- Lowercase a string character-wise (Python `str.lower` on the ASCII
range used by the blocking indicators). -/
def strLower (s : String) : String :=
  ⟨s.data.map Char.toLower⟩

/-- First `n` characters of a string (Python slice `s[:n]`, which counts
code points like `List Char` does). -/
def strTake (s : String) (n : Nat) : String :=
  ⟨s.data.take n⟩

/-- Substring containment (Python `pat in s`). -/
def containsSub (s pat : String) : Bool :=
  (List.range (s.data.length + 1)).any (fun i => pat.data.isPrefixOf (s.data.drop i))

/-- Python truthiness of a JSON value, as used by
`if result.get('is_blocked'):`. -/
def jTruthy : JValue → Bool
  | .null => false
  | .bool v => v
  | .num v => decide (v ≠ 0)
  | .str s => decide (s ≠ "")
  | .arr xs => !xs.isEmpty
  | .obj kvs => !kvs.isEmpty

/-- First-match lookup in a JSON object's key/value list
(Python `dict[k]` / `dict.get(k)` on the dict `json.loads` builds). -/
def jlookup : List (String × JValue) → String → Option JValue
  | [], _ => none
  | (k', v) :: rest, k => if k' = k then some v else jlookup rest k

/-- Python `dict[k] = v` on an association list: overwrite in place when
the key exists, append at the end otherwise.  `d.update(m)` is this,
folded over `m` in insertion order. -/
def dictSet (kvs : List (String × JValue)) (k : String) (v : JValue) :
    List (String × JValue) :=
  if kvs.any (fun p => decide (p.1 = k)) then
    kvs.map (fun p => if p.1 = k then (k, v) else p)
  else
    kvs ++ [(k, v)]

/-- Predicate used to state claims about the price field: is this JSON
value a number? -/
def jIsNum : JValue → Bool
  | .num _ => true
  | _ => false

/-- `_safe_request` (scraper.py lines 52–62).  The transport oracle is
the outcome of the single `session.get` + `response.text()` exchange:
`.ok (body, status)`, or `.error e` for any raised exception.  The
second component of the result counts transport attempts; the source
performs exactly one `session.get`, with no retry loop.  On an
exception the source logs and returns `(None, 500)`. -/
def safeRequest (transport : Except String (String × Nat)) :
    (Option String × Nat) × Nat :=
  match transport with
  | .ok (content, status) => ((some content, status), 1)
  | .error _ => ((none, 500), 1)

/-- Which stage of `_check_for_blocking` produced the verdict: the
deterministic indicator list, or the LLM fallback. -/
inductive BlockSource where
  | heuristic : BlockSource
  | semantic : BlockSource
deriving DecidableEq

/-- Outcome of `_check_for_blocking`, together with the trace of
classifier-call excerpts actually sent to the LLM. -/
structure BlockOutcome where
  isBlocked : Bool
  source : BlockSource
  classifierCalls : List String
deriving DecidableEq

/-- The `blocking_indicators` list of `_check_for_blocking`
(scraper.py lines 91–96): status in `[403, 429, 503]`, or the lowercased
body contains `"captcha"`, `"access denied"` or `"rate limit"`.
`any(blocking_indicators)` is `List.any`. -/
def heuristicBlocked (body : String) (status : Nat) : Bool :=
  [ ([403, 429, 503] : List Nat).contains status,
    containsSub (strLower body) "captcha",
    containsSub (strLower body) "access denied",
    containsSub (strLower body) "rate limit" ].any (fun b => b)

/-- Truthiness of `result.get('is_blocked')` after `json.loads`: a
non-dict reply makes `.get` raise `AttributeError`, which the
surrounding `except` turns into `False`; a missing key gives `None`,
which is falsy. -/
def llmReplyBlocked : JValue → Bool
  | .obj d =>
    match jlookup d "is_blocked" with
    | some v => jTruthy v
    | none => false
  | _ => false

/-- `_check_for_blocking` (scraper.py lines 79–128).  Stage 1: the
indicator list short-circuits with `True` before any LLM call.  Stage 2:
one classifier call on `response_text[:1000]` (the oracle `classify` is
indexed by that varying excerpt; the fixed instruction text sent with
every call is a constant prefix and is omitted from the index).  `none`
stands for a raised call or unparseable reply, handled by the `except`
as not blocked (fail-open). -/
def checkForBlocking (classify : String → Option JValue) (body : String)
    (status : Nat) : BlockOutcome :=
  if heuristicBlocked body status then
    { isBlocked := true, source := .heuristic, classifierCalls := [] }
  else
    match classify (strTake body 1000) with
    | none =>
      { isBlocked := false, source := .semantic,
        classifierCalls := [strTake body 1000] }
    | some j =>
      { isBlocked := llmReplyBlocked j, source := .semantic,
        classifierCalls := [strTake body 1000] }

/-- Outcome of `_extract_data_with_llm`, together with the traces of
reducer inputs and extraction-call excerpts. -/
structure ExtractOutcome where
  result : Option JValue
  reduceCalls : List String
  llmCalls : List String

/-- `_extract_data_with_llm` (scraper.py lines 130–192).  The
BeautifulSoup reduction (parse, decompose script/style, select
price/product fragments, build `clean_html`) is the HTML-parsing
capability and is the oracle `reduce`; an `.error` is any exception it
raises, landing in the function's single `except`.  The extraction call
sends `clean_html[:4000]` (oracle `complete`, indexed by that excerpt;
`none` is a raised call or a reply `json.loads` rejects).  On a parsed
object `d`, `extracted_data.update({'timestamp': now, 'url': url})`
sets `timestamp` then `url`; a parsed non-object makes `.update` raise
`AttributeError`, caught as `None`.  Every failure path returns
`result = none` — the `except` swallows the exception. -/
def extractDataWithLLM (reduce : String → Except String String)
    (complete : String → Option JValue) (now url html : String) :
    ExtractOutcome :=
  match reduce html with
  | .error _ => { result := none, reduceCalls := [html], llmCalls := [] }
  | .ok cleanHtml =>
    match complete (strTake cleanHtml 4000) with
    | none =>
      { result := none, reduceCalls := [html],
        llmCalls := [strTake cleanHtml 4000] }
    | some (.obj d) =>
      { result := some (.obj (dictSet (dictSet d "timestamp" (.str now))
          "url" (.str url))),
        reduceCalls := [html], llmCalls := [strTake cleanHtml 4000] }
    | some _ =>
      { result := none, reduceCalls := [html],
        llmCalls := [strTake cleanHtml 4000] }

/-- Oracle environment for one `scrape()` invocation: the transport
outcome, the classifier and extraction completions, the BeautifulSoup
reduction, whether the `open('last_response.html','w')` write succeeds,
and the instant `datetime.now().isoformat()` yields at call time. -/
structure ScrapeEnv where
  transport : Except String (String × Nat)
  classify : String → Option JValue
  reduce : String → Except String String
  complete : String → Option JValue
  writeOk : Bool
  now : String

/-- Observable side effects of one `scrape()` invocation. -/
structure ScrapeTrace where
  classifierCalls : List String
  wrote : Option String
  reduceCalls : List String
  llmCalls : List String

/-- `scrape` (scraper.py lines 194–216): fetch; return `None` on an
absent body; return `None` when `_check_for_blocking` says blocked;
write the raw body to `last_response.html` — the write is NOT inside
any `try`, so a failing write raises out of `scrape` (modelled as the
`.error` result); otherwise return `_extract_data_with_llm`'s result.
The first component is the Python return value (`.error` = an uncaught
exception), the second the side-effect trace. -/
def scrape (env : ScrapeEnv) (url : String) :
    Except String (Option JValue) × ScrapeTrace :=
  match (safeRequest env.transport).1 with
  | (none, _) => (.ok none, ⟨[], none, [], []⟩)
  | (some body, status) =>
    if (checkForBlocking env.classify body status).isBlocked then
      (.ok none,
       ⟨(checkForBlocking env.classify body status).classifierCalls,
        none, [], []⟩)
    else if env.writeOk then
      (.ok (extractDataWithLLM env.reduce env.complete env.now url body).result,
       ⟨(checkForBlocking env.classify body status).classifierCalls,
        some body,
        (extractDataWithLLM env.reduce env.complete env.now url body).reduceCalls,
        (extractDataWithLLM env.reduce env.complete env.now url body).llmCalls⟩)
    else
      (.error "OSError: write to last_response.html failed",
       ⟨(checkForBlocking env.classify body status).classifierCalls,
        none, [], []⟩)

/-- Keep a key/value pair unless its key is `timestamp`. -/
def tsKeep (p : String × JValue) : Bool :=
  decide (p.1 ≠ "timestamp")

/-- Delete the top-level `timestamp` field of a JSON object; used to
compare two pipeline runs that differ only in the call-time instant. -/
def stripTimestamp : JValue → JValue
  | .obj kvs => .obj (kvs.filter tsKeep)
  | v => v

/-! ### Association-list lemmas about `dictSet` and `jlookup` -/

theorem jlookup_map_set_self (k : String) (v : JValue) :
    ∀ d : List (String × JValue),
      d.any (fun p => decide (p.1 = k)) = true →
      jlookup (d.map (fun p => if p.1 = k then (k, v) else p)) k = some v := by
  intro d
  induction d with
  | nil => simp
  | cons a d ih =>
    obtain ⟨ak, av⟩ := a
    intro h
    simp only [List.map_cons]
    by_cases h1 : (ak, av).1 = k
    · rw [if_pos h1]
      simp [jlookup]
    · rw [if_neg h1]
      simp only [List.any_cons, Bool.or_eq_true, decide_eq_true_eq] at h
      have h' : d.any (fun p => decide (p.1 = k)) = true := by
        rcases h with h | h
        · exact absurd h h1
        · exact h
      rw [jlookup, if_neg h1]
      exact ih h'

theorem jlookup_append_self (k : String) (v : JValue) :
    ∀ d : List (String × JValue),
      d.any (fun p => decide (p.1 = k)) = false →
      jlookup (d ++ [(k, v)]) k = some v := by
  intro d
  induction d with
  | nil => simp [jlookup]
  | cons a d ih =>
    obtain ⟨ak, av⟩ := a
    intro h
    simp only [List.any_cons, Bool.or_eq_false_iff, decide_eq_false_iff_not] at h
    rw [List.cons_append, jlookup, if_neg h.1]
    exact ih (by simpa using h.2)

/-- Setting a key then looking it up yields the new value
(Python: `d[k] = v; d[k] == v`). -/
theorem jlookup_dictSet_self (d : List (String × JValue)) (k : String)
    (v : JValue) : jlookup (dictSet d k v) k = some v := by
  unfold dictSet
  by_cases h : d.any (fun p => decide (p.1 = k)) = true
  · rw [if_pos h]
    exact jlookup_map_set_self k v d h
  · rw [if_neg h]
    exact jlookup_append_self k v d (Bool.eq_false_iff.mpr h)

theorem jlookup_map_set_ne (k k' : String) (v : JValue) (hk : k' ≠ k) :
    ∀ d : List (String × JValue),
      jlookup (d.map (fun p => if p.1 = k then (k, v) else p)) k' =
        jlookup d k' := by
  intro d
  have hk2 : ¬ k = k' := fun h => hk h.symm
  induction d with
  | nil => simp [jlookup]
  | cons a d ih =>
    obtain ⟨ak, av⟩ := a
    simp only [List.map_cons]
    by_cases h1 : (ak, av).1 = k
    · rw [if_pos h1]
      rw [jlookup, if_neg hk2, jlookup]
      have h2 : ¬ ak = k' := by
        simpa [show ak = k from h1] using hk2
      rw [if_neg h2]
      exact ih
    · rw [if_neg h1]
      rw [jlookup, jlookup]
      by_cases h2 : ak = k'
      · rw [if_pos h2, if_pos h2]
      · rw [if_neg h2, if_neg h2]
        exact ih

theorem jlookup_append_ne (k k' : String) (v : JValue) (hk2 : ¬ k = k') :
    ∀ d : List (String × JValue),
      jlookup (d ++ [(k, v)]) k' = jlookup d k' := by
  intro d
  induction d with
  | nil => simp [jlookup, hk2]
  | cons a d ih =>
    obtain ⟨ak, av⟩ := a
    rw [List.cons_append, jlookup, jlookup]
    by_cases h2 : ak = k'
    · rw [if_pos h2, if_pos h2]
    · rw [if_neg h2, if_neg h2]
      exact ih

/-- Setting one key leaves lookups of every other key unchanged. -/
theorem jlookup_dictSet_ne (d : List (String × JValue)) (k k' : String)
    (v : JValue) (hk : k' ≠ k) :
    jlookup (dictSet d k v) k' = jlookup d k' := by
  have hk2 : ¬ k = k' := fun h => hk h.symm
  unfold dictSet
  by_cases h : d.any (fun p => decide (p.1 = k)) = true
  · rw [if_pos h]
    exact jlookup_map_set_ne k k' v hk d
  · rw [if_neg h]
    exact jlookup_append_ne k k' v hk2 d

/-! ### Lemmas about deleting the `timestamp` field -/

theorem filter_map_set_ts (v : JValue) :
    ∀ d : List (String × JValue),
      (d.map (fun p => if p.1 = "timestamp" then ("timestamp", v) else p)).filter
          tsKeep =
        d.filter tsKeep := by
  intro d
  induction d with
  | nil => rfl
  | cons a d ih =>
    obtain ⟨ak, av⟩ := a
    simp only [List.map_cons]
    by_cases h1 : (ak, av).1 = "timestamp"
    · rw [if_pos h1]
      rw [List.filter_cons_of_neg (by simp [tsKeep]),
          List.filter_cons_of_neg (by simp [tsKeep]; exact h1)]
      exact ih
    · rw [if_neg h1]
      rw [List.filter_cons_of_pos (by simp [tsKeep, h1]),
          List.filter_cons_of_pos (by simp [tsKeep, h1])]
      rw [ih]

/-- Overwriting the `timestamp` key is invisible after that key is
deleted. -/
theorem filter_dictSet_ts (d : List (String × JValue)) (v : JValue) :
    (dictSet d "timestamp" v).filter tsKeep = d.filter tsKeep := by
  unfold dictSet
  by_cases h : d.any (fun p => decide (p.1 = "timestamp")) = true
  · rw [if_pos h]
    exact filter_map_set_ts v d
  · rw [if_neg h]
    rw [List.filter_append]
    simp [tsKeep]

theorem any_filter_tsKeep (k : String) (hk : ¬ k = "timestamp") :
    ∀ d : List (String × JValue),
      (d.filter tsKeep).any (fun p => decide (p.1 = k)) =
        d.any (fun p => decide (p.1 = k)) := by
  intro d
  induction d with
  | nil => rfl
  | cons a d ih =>
    obtain ⟨ak, av⟩ := a
    by_cases hts : ak = "timestamp"
    · rw [List.filter_cons_of_neg (by simp [tsKeep, hts])]
      rw [List.any_cons, ih]
      have : decide ((ak, av).1 = k) = false := by
        simp [hts]
        intro hkk
        exact hk hkk.symm
      rw [this, Bool.false_or]
    · rw [List.filter_cons_of_pos (by simp [tsKeep, hts])]
      rw [List.any_cons, List.any_cons, ih]

theorem filter_map_set_ne (k : String) (v : JValue) (hk : ¬ k = "timestamp") :
    ∀ d : List (String × JValue),
      (d.map (fun p => if p.1 = k then (k, v) else p)).filter tsKeep =
        (d.filter tsKeep).map (fun p => if p.1 = k then (k, v) else p) := by
  intro d
  induction d with
  | nil => rfl
  | cons a d ih =>
    obtain ⟨ak, av⟩ := a
    simp only [List.map_cons]
    by_cases h1 : (ak, av).1 = k
    · rw [if_pos h1]
      rw [List.filter_cons_of_pos (by simp [tsKeep, hk]),
          List.filter_cons_of_pos
            (by simp [tsKeep]; rw [show ak = k from h1]; exact hk)]
      rw [List.map_cons, if_pos h1, ih]
    · rw [if_neg h1]
      by_cases hts : ak = "timestamp"
      · rw [List.filter_cons_of_neg (by simp [tsKeep, hts]),
            List.filter_cons_of_neg (by simp [tsKeep, hts])]
        exact ih
      · rw [List.filter_cons_of_pos (by simp [tsKeep, hts]),
            List.filter_cons_of_pos (by simp [tsKeep, hts])]
        rw [List.map_cons, if_neg h1, ih]

/-- Setting a non-`timestamp` key commutes with deleting `timestamp`. -/
theorem filter_dictSet_ne (d : List (String × JValue)) (k : String)
    (v : JValue) (hk : ¬ k = "timestamp") :
    (dictSet d k v).filter tsKeep = dictSet (d.filter tsKeep) k v := by
  unfold dictSet
  by_cases h : d.any (fun p => decide (p.1 = k)) = true
  · rw [if_pos h, if_pos (by rw [any_filter_tsKeep k hk d]; exact h)]
    exact filter_map_set_ne k v hk d
  · rw [if_neg h, if_neg (by rw [any_filter_tsKeep k hk d]; exact h)]
    rw [List.filter_append]
    have : tsKeep (k, v) = true := by simp [tsKeep, hk]
    simp [this]

/-- The record built by `_extract_data_with_llm` from the same service
reply, at two different call-time instants, is identical once its
`timestamp` field is deleted. -/
theorem strip_update_now (d : List (String × JValue)) (u : JValue)
    (n₁ n₂ : String) :
    (dictSet (dictSet d "timestamp" (.str n₁)) "url" u).filter tsKeep =
      (dictSet (dictSet d "timestamp" (.str n₂)) "url" u).filter tsKeep := by
  rw [filter_dictSet_ne (dictSet d "timestamp" (.str n₁)) "url" u (by decide),
      filter_dictSet_ts,
      filter_dictSet_ne (dictSet d "timestamp" (.str n₂)) "url" u (by decide),
      filter_dictSet_ts]

/-- The outcome of `_extract_data_with_llm` depends on the call-time
instant only through the `timestamp` field of a successful record: the
stripped result and both call traces are invariant under changing it. -/
theorem extract_now_invariant (reduce : String → Except String String)
    (complete : String → Option JValue) (n₁ n₂ url html : String) :
    Option.map stripTimestamp
        (extractDataWithLLM reduce complete n₁ url html).result =
      Option.map stripTimestamp
        (extractDataWithLLM reduce complete n₂ url html).result ∧
    (extractDataWithLLM reduce complete n₁ url html).reduceCalls =
      (extractDataWithLLM reduce complete n₂ url html).reduceCalls ∧
    (extractDataWithLLM reduce complete n₁ url html).llmCalls =
      (extractDataWithLLM reduce complete n₂ url html).llmCalls := by
  cases hr : reduce html with
  | error e => simp [extractDataWithLLM, hr]
  | ok clean =>
    cases hc : complete (strTake clean 4000) with
    | none => simp [extractDataWithLLM, hr, hc]
    | some j =>
      cases j with
      | null => simp [extractDataWithLLM, hr, hc]
      | bool v => simp [extractDataWithLLM, hr, hc]
      | num v => simp [extractDataWithLLM, hr, hc]
      | str s => simp [extractDataWithLLM, hr, hc]
      | arr xs => simp [extractDataWithLLM, hr, hc]
      | obj d =>
        refine ⟨?_, by simp [extractDataWithLLM, hr, hc],
          by simp [extractDataWithLLM, hr, hc]⟩
        simp only [extractDataWithLLM, hr, hc, Option.map_some, stripTimestamp]
        exact congrArg (some ∘ JValue.obj) (strip_update_now d (.str url) n₁ n₂)

/-! ### Claim theorems -/

/-- C1: if the status is 403, 429 or 503, or the body contains
(case-insensitively) "captcha", "access denied" or "rate limit", then
`_check_for_blocking` returns a blocked verdict from the heuristic stage
and the semantic classifier is never invoked (its call trace is empty). -/
theorem heuristic_block_shortcircuits (classify : String → Option JValue)
    (body : String) (status : Nat)
    (h : status = 403 ∨ status = 429 ∨ status = 503 ∨
         containsSub (strLower body) "captcha" = true ∨
         containsSub (strLower body) "access denied" = true ∨
         containsSub (strLower body) "rate limit" = true) :
    checkForBlocking classify body status =
      { isBlocked := true, source := .heuristic, classifierCalls := [] } := by
  have hb : heuristicBlocked body status = true := by
    unfold heuristicBlocked
    simp only [List.any_cons, List.any_nil, Bool.or_false, Bool.or_eq_true]
    rcases h with h | h | h | h | h | h
    · exact Or.inl (by subst h; decide)
    · exact Or.inl (by subst h; decide)
    · exact Or.inl (by subst h; decide)
    · exact Or.inr (Or.inl h)
    · exact Or.inr (Or.inr (Or.inl h))
    · exact Or.inr (Or.inr (Or.inr h))
  unfold checkForBlocking
  rw [if_pos hb]

/-- C1 witness: a body containing "CAPTCHA" (uppercase) with a benign
status 200 is blocked heuristically with no classifier call. -/
theorem heuristic_block_shortcircuits_witness :
    checkForBlocking (fun _ => none) "Please solve this CAPTCHA" 200 =
      { isBlocked := true, source := .heuristic, classifierCalls := [] } :=
  heuristic_block_shortcircuits (fun _ => none) "Please solve this CAPTCHA" 200
    (Or.inr (Or.inr (Or.inr (Or.inl (by decide)))))

/-- C2: when no Stage-1 heuristic matches, `_check_for_blocking` calls
the semantic classifier exactly once, on the first 1000 characters of
the body; if the call errors or its reply is unparseable (`none`), the
verdict is not-blocked (fail-open).  The embedding is a total function:
the `except` keeps any classifier exception from the caller. -/
theorem semantic_fallback_failopen (classify : String → Option JValue)
    (body : String) (status : Nat)
    (h : heuristicBlocked body status = false) :
    (checkForBlocking classify body status).classifierCalls =
      [strTake body 1000] ∧
    (checkForBlocking classify body status).source = BlockSource.semantic ∧
    (classify (strTake body 1000) = none →
      (checkForBlocking classify body status).isBlocked = false) := by
  unfold checkForBlocking
  rw [if_neg (by rw [h]; exact Bool.false_ne_true)]
  cases hcl : classify (strTake body 1000) with
  | none => exact ⟨rfl, rfl, fun _ => rfl⟩
  | some j => exact ⟨rfl, rfl, fun hc => Option.noConfusion hc⟩

/-- C2 witness: a benign body at status 200 triggers exactly one
classifier call on its first 1000 characters; the classifier erroring
(`none`) yields a not-blocked verdict. -/
theorem semantic_fallback_failopen_witness :
    (checkForBlocking (fun _ => none) "<html><body>welcome</body></html>"
        200).classifierCalls =
      [strTake "<html><body>welcome</body></html>" 1000] ∧
    (checkForBlocking (fun _ => none) "<html><body>welcome</body></html>"
        200).source = BlockSource.semantic ∧
    ((fun _ => (none : Option JValue))
        (strTake "<html><body>welcome</body></html>" 1000) = none →
      (checkForBlocking (fun _ => none) "<html><body>welcome</body></html>"
          200).isBlocked = false) :=
  semantic_fallback_failopen (fun _ => none)
    "<html><body>welcome</body></html>" 200 (by decide)

/-- C4: `_safe_request` maps every raised transport exception to
`(None, 500)` — the embedding is a total function, so nothing
propagates — and performs exactly one GET attempt per invocation,
whatever the transport outcome. -/
theorem safe_request_error_maps_500 (transport : Except String (String × Nat))
    (e : String) :
    (safeRequest (Except.error e)).1 = (none, 500) ∧
    (safeRequest transport).2 = 1 := by
  refine ⟨rfl, ?_⟩
  rcases transport with e' | ⟨c, s⟩ <;> rfl

/-- C5: when the fetch yields an absent body (a transport error), or the
block verdict is true, `scrape` returns the absent result and neither
the BeautifulSoup reduction nor the extraction call is ever invoked
(both traces are empty); consequently a record is produced only when
the fetch succeeded and no block was detected. -/
theorem scrape_shortcircuits (env : ScrapeEnv) (url : String)
    (h : (∃ e, env.transport = Except.error e) ∨
         ∃ body status, env.transport = Except.ok (body, status) ∧
           (checkForBlocking env.classify body status).isBlocked = true) :
    (scrape env url).1 = .ok none ∧
    (scrape env url).2.reduceCalls = [] ∧
    (scrape env url).2.llmCalls = [] := by
  rcases h with ⟨e, he⟩ | ⟨body, status, ht, hb⟩
  · simp [scrape, he, safeRequest]
  · simp [scrape, ht, safeRequest, hb]

/-- Deterministic oracle environment for a blocked fetch: the server
answers 403 with an "Access Denied" page. -/
def envBlocked : ScrapeEnv :=
  { transport := .ok ("Access Denied", 403), classify := fun _ => none,
    reduce := fun _ => .ok "", complete := fun _ => none,
    writeOk := true, now := "2026-10-12T00:00:00" }

/-- C5 witness: on a 403 response, `scrape` returns absent and the
reducer and extractor traces are empty. -/
theorem scrape_shortcircuits_witness :
    (scrape envBlocked "https://shop.example/p").1 = .ok none ∧
    (scrape envBlocked "https://shop.example/p").2.reduceCalls = [] ∧
    (scrape envBlocked "https://shop.example/p").2.llmCalls = [] :=
  scrape_shortcircuits envBlocked "https://shop.example/p"
    (Or.inr ⟨"Access Denied", 403, rfl, by decide⟩)

/-- C6: when the extraction-service call errors or its reply is
unparseable (`none`), `_extract_data_with_llm` returns the absent
result — the embedding is total, so nothing propagates — and under the
same circumstances the orchestrator returns absent instead of
crashing. -/
theorem extractor_failsoft (env : ScrapeEnv) (url html clean : String)
    (hr : env.reduce html = Except.ok clean)
    (hc : env.complete (strTake clean 4000) = none) :
    (extractDataWithLLM env.reduce env.complete env.now url html).result =
      none ∧
    (∀ status, env.transport = Except.ok (html, status) →
      (checkForBlocking env.classify html status).isBlocked = false →
      env.writeOk = true →
      (scrape env url).1 = .ok none) := by
  constructor
  · simp [extractDataWithLLM, hr, hc]
  · intro status ht hb hw
    simp [scrape, ht, safeRequest, hb, hw, extractDataWithLLM, hr, hc]

/-- Deterministic oracle environment in which the fetch succeeds, no
block is detected, and the extraction-service call fails. -/
def envSoft : ScrapeEnv :=
  { transport := .ok ("<html>ok</html>", 200), classify := fun _ => none,
    reduce := fun _ => .ok "<div>reduced</div>", complete := fun _ => none,
    writeOk := true, now := "2026-10-12T00:00:00" }

/-- C6 witness: with a failing extraction service, the extractor
returns absent and `scrape` returns absent rather than crashing. -/
theorem extractor_failsoft_witness :
    (extractDataWithLLM envSoft.reduce envSoft.complete envSoft.now
        "https://shop.example/p" "<html>ok</html>").result = none ∧
    (scrape envSoft "https://shop.example/p").1 = .ok none := by
  have h := extractor_failsoft envSoft "https://shop.example/p"
    "<html>ok</html>" "<div>reduced</div>" rfl rfl
  exact ⟨h.1, h.2 200 rfl (by decide) rfl⟩

/-- C7 (amended): the raw body is persisted to `last_response.html`
only when the fetch returned a body AND no block was detected; and the
write is not guarded by any `try`, so when it fails the exception
propagates out of `scrape` — the pipeline aborts before the extractor
instead of proceeding. -/
theorem write_gated_and_fragile (env : ScrapeEnv) (url body : String)
    (status : Nat) (ht : env.transport = Except.ok (body, status)) :
    ((checkForBlocking env.classify body status).isBlocked = true →
      (scrape env url).2.wrote = none) ∧
    ((checkForBlocking env.classify body status).isBlocked = false →
      env.writeOk = true →
      (scrape env url).2.wrote = some body) ∧
    ((checkForBlocking env.classify body status).isBlocked = false →
      env.writeOk = false →
      (scrape env url).1 =
        .error "OSError: write to last_response.html failed" ∧
      (scrape env url).2.llmCalls = []) := by
  refine ⟨fun hb => ?_, fun hb hw => ?_, fun hb hw => ?_⟩
  · simp [scrape, ht, safeRequest, hb]
  · simp [scrape, ht, safeRequest, hb, hw]
  · constructor <;> simp [scrape, ht, safeRequest, hb, hw]

/-- Deterministic oracle environment in which the fetch succeeds, no
block is detected, and the `last_response.html` write fails. -/
def envW : ScrapeEnv :=
  { transport := .ok ("hello world", 200), classify := fun _ => none,
    reduce := fun _ => .ok "", complete := fun _ => none,
    writeOk := false, now := "2026-10-12T00:00:00" }

/-- C7 counterexample: the fetch returns a non-absent body, the debug
write fails, and `scrape` aborts with the propagated exception — no
write is recorded, the extractor is never reached, and no normal
(success or absent) result is returned, refuting "a failure of that
write does not abort the pipeline". -/
theorem write_failure_aborts_counterexample :
    (scrape envW "https://shop.example/p").1 =
      .error "OSError: write to last_response.html failed" ∧
    (scrape envW "https://shop.example/p").2.wrote = none ∧
    (scrape envW "https://shop.example/p").2.llmCalls = [] :=
  ⟨rfl, rfl, rfl⟩

/-- C7 witness: the amended claim at the concrete failing-write
environment. -/
theorem write_gated_and_fragile_witness :
    (scrape envW "https://shop.example/p").1 =
      .error "OSError: write to last_response.html failed" ∧
    (scrape envW "https://shop.example/p").2.llmCalls = [] :=
  (write_gated_and_fragile envW "https://shop.example/p" "hello world" 200
    rfl).2.2 (by decide) rfl

/-- A service reply whose price field is the non-numeric string
"free". -/
def freeReply : JValue :=
  .obj [("name", .str "Widget"), ("price", .str "free")]

/-- C3 counterexample: `_extract_data_with_llm` performs no coercion of
the price field — when the service reply carries `"price": "free"`, the
returned record has the price field PRESENT and equal to the non-numeric
string "free", refuting "malformed numeric strings that cannot be
coerced leave the price field absent rather than ... appearing as a
non-numeric value". -/
theorem price_not_coerced_counterexample :
    (extractDataWithLLM (fun _ => Except.ok "") (fun _ => some freeReply)
        "2026-10-12T00:00:00" "https://shop.example/p" "<html></html>").result =
      some (.obj [("name", .str "Widget"), ("price", .str "free"),
                  ("timestamp", .str "2026-10-12T00:00:00"),
                  ("url", .str "https://shop.example/p")]) ∧
    jlookup [("name", JValue.str "Widget"), ("price", JValue.str "free"),
             ("timestamp", JValue.str "2026-10-12T00:00:00"),
             ("url", JValue.str "https://shop.example/p")] "price" =
      some (JValue.str "free") ∧
    jIsNum (JValue.str "free") = false :=
  ⟨rfl, rfl, rfl⟩

/-- C3 (amended): the extractor passes the service reply's price field
through unchanged — comma-to-dot normalization and numeric coercion are
requested only in the instruction text sent to the service, and no
code-level coercion exists, so the record's price field equals exactly
the reply's price field, whatever its type or absence. -/
theorem price_passthrough (reduce : String → Except String String)
    (complete : String → Option JValue) (now url html clean : String)
    (d : List (String × JValue))
    (hr : reduce html = Except.ok clean)
    (hc : complete (strTake clean 4000) = some (.obj d)) :
    (extractDataWithLLM reduce complete now url html).result =
      some (.obj (dictSet (dictSet d "timestamp" (.str now)) "url"
        (.str url))) ∧
    jlookup (dictSet (dictSet d "timestamp" (.str now)) "url" (.str url))
        "price" = jlookup d "price" := by
  refine ⟨by simp [extractDataWithLLM, hr, hc], ?_⟩
  rw [jlookup_dictSet_ne _ _ _ _ (by decide),
      jlookup_dictSet_ne _ _ _ _ (by decide)]

/-- C3 witness: the amended claim at the "free"-price reply — the
record's price field equals the reply's, the untouched string "free". -/
theorem price_passthrough_witness :
    (extractDataWithLLM (fun _ => Except.ok "") (fun _ => some freeReply)
        "2026-10-12T00:00:00" "https://shop.example/p" "<html></html>").result =
      some (.obj (dictSet (dictSet
        [("name", JValue.str "Widget"), ("price", JValue.str "free")]
        "timestamp" (.str "2026-10-12T00:00:00")) "url"
        (.str "https://shop.example/p"))) ∧
    jlookup (dictSet (dictSet
        [("name", JValue.str "Widget"), ("price", JValue.str "free")]
        "timestamp" (.str "2026-10-12T00:00:00")) "url"
        (.str "https://shop.example/p")) "price" =
      jlookup [("name", JValue.str "Widget"), ("price", JValue.str "free")]
        "price" :=
  price_passthrough (fun _ => Except.ok "") (fun _ => some freeReply)
    "2026-10-12T00:00:00" "https://shop.example/p" "<html></html>" ""
    [("name", JValue.str "Widget"), ("price", JValue.str "free")] rfl rfl

/-- C8: with a 200 status, a body triggering no block verdict, a
successful debug write and a service reply that parses to a JSON
object, `scrape` returns a populated record whose `url` field is the
construction URL and whose `timestamp` field is the call-time
instant. -/
theorem scrape_success_record (env : ScrapeEnv) (url body clean : String)
    (d : List (String × JValue))
    (ht : env.transport = Except.ok (body, 200))
    (hb : (checkForBlocking env.classify body 200).isBlocked = false)
    (hw : env.writeOk = true)
    (hr : env.reduce body = Except.ok clean)
    (hc : env.complete (strTake clean 4000) = some (.obj d)) :
    (scrape env url).1 =
      .ok (some (.obj (dictSet (dictSet d "timestamp" (.str env.now)) "url"
        (.str url)))) ∧
    jlookup (dictSet (dictSet d "timestamp" (.str env.now)) "url" (.str url))
        "url" = some (.str url) ∧
    jlookup (dictSet (dictSet d "timestamp" (.str env.now)) "url" (.str url))
        "timestamp" = some (.str env.now) := by
  refine ⟨?_, jlookup_dictSet_self _ _ _, ?_⟩
  · simp [scrape, ht, safeRequest, hb, hw, extractDataWithLLM, hr, hc]
  · rw [jlookup_dictSet_ne _ _ _ _ (by decide)]
    exact jlookup_dictSet_self _ _ _

/-- Deterministic oracle environment for the happy path: 200 status,
benign body, working write, service reply a well-formed record. -/
def envHappy : ScrapeEnv :=
  { transport := .ok ("<p>Widget</p>", 200), classify := fun _ => none,
    reduce := fun _ => .ok "<div>5 EUR</div>",
    complete := fun _ => some (.obj
      [("name", .str "Widget"), ("price", .num 5),
       ("currency", .str "EUR"), ("promotion", .null)]),
    writeOk := true, now := "2026-10-12T09:00:00" }

/-- C8 witness: the happy-path environment yields the populated record
with the construction URL and the call-time instant. -/
theorem scrape_success_record_witness :
    (scrape envHappy "https://shop.example/w").1 =
      .ok (some (.obj (dictSet (dictSet
        [("name", JValue.str "Widget"), ("price", JValue.num 5),
         ("currency", JValue.str "EUR"), ("promotion", JValue.null)]
        "timestamp" (.str envHappy.now)) "url"
        (.str "https://shop.example/w")))) ∧
    jlookup (dictSet (dictSet
        [("name", JValue.str "Widget"), ("price", JValue.num 5),
         ("currency", JValue.str "EUR"), ("promotion", JValue.null)]
        "timestamp" (.str envHappy.now)) "url"
        (.str "https://shop.example/w")) "url" =
      some (.str "https://shop.example/w") ∧
    jlookup (dictSet (dictSet
        [("name", JValue.str "Widget"), ("price", JValue.num 5),
         ("currency", JValue.str "EUR"), ("promotion", JValue.null)]
        "timestamp" (.str envHappy.now)) "url"
        (.str "https://shop.example/w")) "timestamp" =
      some (.str envHappy.now) :=
  scrape_success_record envHappy "https://shop.example/w" "<p>Widget</p>"
    "<div>5 EUR</div>"
    [("name", JValue.str "Widget"), ("price", JValue.num 5),
     ("currency", JValue.str "EUR"), ("promotion", JValue.null)]
    rfl (by decide) rfl rfl rfl

/-- C9: two invocations of `scrape` on the same URL over identical
deterministic oracles, differing only in the call-time instant, return
results that are identical once the record's `timestamp` field is
deleted — same success/absent/error shape and byte-identical remaining
fields — and leave identical side-effect traces. -/
theorem scrape_deterministic_mod_timestamp (env : ScrapeEnv)
    (n url : String) :
    Except.map (Option.map stripTimestamp)
        (scrape { env with now := n } url).1 =
      Except.map (Option.map stripTimestamp) (scrape env url).1 ∧
    (scrape { env with now := n } url).2 = (scrape env url).2 := by
  obtain ⟨tr, cl, rd, cp, w, now0⟩ := env
  cases htr : tr with
  | error e => simp [scrape, htr, safeRequest]
  | ok p =>
    obtain ⟨body, status⟩ := p
    by_cases hb : (checkForBlocking cl body status).isBlocked = true
    · simp [scrape, htr, safeRequest, hb]
    · cases w with
      | false => simp [scrape, htr, safeRequest, hb]
      | true =>
        have hx := extract_now_invariant rd cp n now0 url body
        refine ⟨?_, ?_⟩
        · simpa [scrape, htr, safeRequest, hb, Except.map] using
            congrArg (@Except.ok String (Option JValue)) hx.1
        · simp [scrape, htr, safeRequest, hb, ScrapeTrace.mk.injEq]
          exact ⟨hx.2.1, hx.2.2⟩

/-- C10: the `url` and `timestamp` fields stamped by
`_extract_data_with_llm` overwrite any same-named keys present in the
service's JSON reply, so the returned record's `url` field always equals
the construction URL and its `timestamp` field the call-time instant,
for every reply object `d` — including replies already carrying `url`
or `timestamp` keys. -/
theorem extract_metadata_overwrites (reduce : String → Except String String)
    (complete : String → Option JValue) (now url html clean : String)
    (d : List (String × JValue))
    (hr : reduce html = Except.ok clean)
    (hc : complete (strTake clean 4000) = some (.obj d)) :
    (extractDataWithLLM reduce complete now url html).result =
      some (.obj (dictSet (dictSet d "timestamp" (.str now)) "url"
        (.str url))) ∧
    jlookup (dictSet (dictSet d "timestamp" (.str now)) "url" (.str url))
        "url" = some (.str url) ∧
    jlookup (dictSet (dictSet d "timestamp" (.str now)) "url" (.str url))
        "timestamp" = some (.str now) := by
  refine ⟨by simp [extractDataWithLLM, hr, hc],
    jlookup_dictSet_self _ _ _, ?_⟩
  rw [jlookup_dictSet_ne _ _ _ _ (by decide)]
  exact jlookup_dictSet_self _ _ _

/-- A service reply that adversarially carries its own `url` and
`timestamp` keys. -/
def evilReply : JValue :=
  .obj [("url", .str "https://attacker.example"),
        ("timestamp", .str "1999-01-01T00:00:00"),
        ("name", .str "Widget")]

/-- C10 witness: even when the reply contains `url` and `timestamp`
keys, the returned record's `url` and `timestamp` are the pipeline's
values, not the reply's. -/
theorem extract_metadata_overwrites_witness :
    (extractDataWithLLM (fun _ => Except.ok "r") (fun _ => some evilReply)
        "2026-10-12T00:00:00" "https://real.example/p" "<html></html>").result =
      some (.obj (dictSet (dictSet
        [("url", JValue.str "https://attacker.example"),
         ("timestamp", JValue.str "1999-01-01T00:00:00"),
         ("name", JValue.str "Widget")]
        "timestamp" (.str "2026-10-12T00:00:00")) "url"
        (.str "https://real.example/p"))) ∧
    jlookup (dictSet (dictSet
        [("url", JValue.str "https://attacker.example"),
         ("timestamp", JValue.str "1999-01-01T00:00:00"),
         ("name", JValue.str "Widget")]
        "timestamp" (.str "2026-10-12T00:00:00")) "url"
        (.str "https://real.example/p")) "url" =
      some (.str "https://real.example/p") ∧
    jlookup (dictSet (dictSet
        [("url", JValue.str "https://attacker.example"),
         ("timestamp", JValue.str "1999-01-01T00:00:00"),
         ("name", JValue.str "Widget")]
        "timestamp" (.str "2026-10-12T00:00:00")) "url"
        (.str "https://real.example/p")) "timestamp" =
      some (.str "2026-10-12T00:00:00") :=
  extract_metadata_overwrites (fun _ => Except.ok "r")
    (fun _ => some evilReply) "2026-10-12T00:00:00" "https://real.example/p"
    "<html></html>" "r"
    [("url", JValue.str "https://attacker.example"),
     ("timestamp", JValue.str "1999-01-01T00:00:00"),
     ("name", JValue.str "Widget")]
    rfl rfl

end SmartScraper
